import Mathlib

/-!
Shallow embedding of `src/mcp/ctx_mcp_server.py`: an MCP protocol adapter
that exposes the external `ctx` command-line tool as MCP tools.

The adapter is pure glue: a static tool catalog (`list_tools`), a dispatcher
that turns a tool name plus argument bag into a backend command line, a
process runner with a 60 second timeout (`run_ctx`), and a response mapper
from the subprocess outcome to a text response (`respond`).

The subprocess itself is the environment: we model its outcome as a
`ProcResult` oracle passed in explicitly.  A Python exception escaping
`call_tool` (KeyError on a missing required argument, TypeError when a
non-string value reaches the argv list) is modelled as `Except.error`.
-/

namespace CtxMcp

/-- JSON-ish values that can appear in an MCP tool-call argument bag.
The declared schemas only use strings, integers, booleans and arrays of
strings, plus JSON null. -/
inductive Value where
  | vNull
  | vBool (b : Bool)
  | vInt (n : Int)
  | vStr (s : String)
  | vList (l : List String)
deriving DecidableEq, Repr

/-- Python truthiness, as used by `arguments.get(k)` guards in `call_tool`:
None, False, 0, "" and [] are falsy, everything else is truthy. -/
def Value.truthy : Value → Bool
  | .vNull => false
  | .vBool b => b
  | .vInt n => decide (n ≠ 0)
  | .vStr s => decide (s ≠ "")
  | .vList l => decide (l ≠ [])

/-- Python `str(...)` on an argument value, used for `str(arguments["depth"])`
and `str(arguments["context"])`. -/
def Value.pyStr : Value → String
  | .vNull => "None"
  | .vBool b => if b then "True" else "False"
  | .vInt n => toString n
  | .vStr s => s
  | .vList l => "[" ++ ", ".intercalate (l.map (fun s => "\x27" ++ s ++ "\x27")) ++ "]"

/-- A value that is appended raw into the subprocess argv must be a string;
anything else makes `subprocess.run` raise TypeError. -/
def Value.asStr : Value → Option String
  | .vStr s => some s
  | _ => none

/-- The argument bag of a tool call: a finite string-keyed dictionary,
modelled as an association list (first binding wins, as in a Python dict). -/
abbrev Args := List (String × Value)

/-- `arguments.get(k)`: `none` models Python `None` for a missing key. -/
def Args.get (a : Args) (k : String) : Option Value :=
  List.lookup k a

/-- `if arguments.get(k):` — truthiness of an optional lookup
(a missing key is falsy). -/
def Args.getTruthy (a : Args) (k : String) : Bool :=
  match Args.get a k with
  | some v => v.truthy
  | none => false

/-- One MCP text content block, `TextContent(type="text", text=...)`. -/
structure TextContent where
  type : String
  text : String
deriving DecidableEq, Repr

/-- A property entry of a declared input schema. -/
structure PropSchema where
  type : String
  description : String
  items : Option String
deriving DecidableEq, Repr

/-- A JSON-schema-shaped input contract of a tool. -/
structure InputSchema where
  type : String
  properties : List (String × PropSchema)
  required : List String
deriving DecidableEq, Repr

/-- A tool descriptor: name, human description, input schema. -/
structure Tool where
  name : String
  description : String
  inputSchema : InputSchema
deriving DecidableEq, Repr

/-- The outcome of the one `subprocess.run` attempt inside `run_ctx`:
the process completed with stdout/stderr/exit code, the `ctx` executable
was not found, or the process exceeded the timeout. -/
inductive ProcResult where
  | completed (stdout : String) (stderr : String) (returncode : Int)
  | fileNotFound
  | timedOut
deriving DecidableEq, Repr

/-- The subprocess invocation `run_ctx` performs: the full argv
(`["ctx"] + args`) and the timeout passed to `subprocess.run`. -/
structure SubprocessCall where
  cmd : List String
  timeout : Nat
deriving DecidableEq, Repr

/-- The `(stdout, stderr, returncode)` triple returned by `run_ctx` for a
given subprocess outcome: the completed triple is passed through, the
FileNotFoundError and TimeoutExpired handlers return fixed values. -/
def run_ctx_result : ProcResult → String × String × Int
  | .completed stdout stderr returncode => (stdout, stderr, returncode)
  | .fileNotFound => ("", "ctx not found in PATH. Please install ctx first.", 1)
  | .timedOut => ("", "Command timed out after 60 seconds", 1)

/-- `run_ctx(*args)`: runs `["ctx"] + args` with `timeout=60` and returns
`(stdout, stderr, returncode)`.  The first component records the subprocess
invocation that was made; the second is the returned triple. -/
def run_ctx (args : List String) (res : ProcResult) :
    SubprocessCall × String × String × Int :=
  (⟨"ctx" :: args, 60⟩, run_ctx_result res)

/-- The error text response built by `call_tool` when the exit code is
nonzero: `Error: <stderr or fallback>\n\nOutput: <stdout>`. -/
def errorResponse (stdout stderr : String) (code : Int) : TextContent :=
  let error_msg := if stderr ≠ "" then stderr
    else "Command failed with exit code " ++ toString code
  ⟨"text", "Error: " ++ error_msg ++ "\n\nOutput: " ++ stdout⟩

/-- The tail of `call_tool`: map `(stdout, stderr, code)` to the response
list — an error text if `code != 0`, otherwise the raw stdout. -/
def respond (stdout stderr : String) (code : Int) : List TextContent :=
  if code ≠ 0 then [errorResponse stdout stderr code]
  else [⟨"text", stdout⟩]

/-- A known-tool branch after its argv is built: call `run_ctx` once and
map the outcome through `respond`.  Returns the recorded subprocess calls
together with the response. -/
def finish (args : List String) (res : ProcResult) :
    Except String (List SubprocessCall × List TextContent) :=
  let r := run_ctx args res
  .ok ([r.1], respond r.2.1 r.2.2.1 r.2.2.2)

/-- `if arguments.get(k): args.append(arguments[k])` — append an optional
argument value raw into the argv when it is truthy.  A truthy non-string
would make `subprocess.run` raise TypeError. -/
def appendOpt (args : List String) (v : Option Value) : Except String (List String) :=
  match v with
  | none => .ok args
  | some x =>
    if x.truthy then
      match x.asStr with
      | some s => .ok (args ++ [s])
      | none => .error "TypeError: expected str"
    else .ok args

/-- `if arguments.get(k): args.extend([flag, str(arguments[k])])` — the
`--depth` / `-C` pattern: flag plus stringified value when truthy. -/
def extendStrOpt (flag : String) (v : Option Value) : List String :=
  match v with
  | none => []
  | some x => if x.truthy then [flag, x.pyStr] else []

/-- `arguments[k]` for a declared-required key that is then appended raw
into the argv: KeyError if missing, TypeError if not a string. -/
def requiredStr (arguments : Args) (k : String) : Except String String :=
  match Args.get arguments k with
  | none => .error ("KeyError: " ++ k)
  | some v =>
    match v.asStr with
    | some s => .ok s
    | none => .error "TypeError: expected str"

/-- `args.extend(arguments.get("paths", []))`: a missing key contributes
nothing, a list of strings is appended, a string is iterated character by
character (Python iteration over str), anything else raises TypeError. -/
def pathsList : Option Value → Except String (List String)
  | none => .ok []
  | some (.vList l) => .ok l
  | some (.vStr s) => .ok (s.toList.map fun c => String.mk [c])
  | some _ => .error "TypeError: not iterable"

/-- The dispatcher part of `call_tool`: maps the tool name and argument bag
to the backend command line (without the leading `"ctx"`), following the
if/elif chain of the source.  `none` means the final `else` branch (unknown
tool); `some (.error e)` means the branch raises before reaching `run_ctx`.
-/
def dispatch (name : String) (arguments : Args) : Option (Except String (List String)) :=
  if name = "ctx_status" then
    some (.ok ["status", "--json"])
  else if name = "ctx_map" then
    some ((appendOpt ["map", "--json"] (Args.get arguments "path")).map
      (fun l => l ++ extendStrOpt "--depth" (Args.get arguments "depth")))
  else if name = "ctx_summarize" then
    some ((pathsList (Args.get arguments "paths")).map
      (fun ps =>
        ["summarize", "--json"]
          ++ (if Args.getTruthy arguments "skeleton" then ["--skeleton"] else [])
          ++ extendStrOpt "--depth" (Args.get arguments "depth")
          ++ ps))
  else if name = "ctx_search" then
    some ((requiredStr arguments "query").map
      (fun q =>
        ["search", "--json"]
          ++ (if Args.getTruthy arguments "symbol" then ["--symbol"] else [])
          ++ (if Args.getTruthy arguments "caller" then ["--caller"] else [])
          ++ extendStrOpt "-C" (Args.get arguments "context")
          ++ [q]))
  else if name = "ctx_related" then
    some ((requiredStr arguments "file").map
      (fun f => ["related", "--json", f]))
  else if name = "ctx_diff_context" then
    some (appendOpt ["diff-context", "--json"] (Args.get arguments "git_ref"))
  else if name = "ctx_schema" then
    some ((requiredStr arguments "command").map
      (fun c => ["schema", c]))
  else if name = "ctx_version" then
    some (.ok ["version", "--json"])
  else
    none

/-- `call_tool(name, arguments)`: dispatch to a backend command line, run it
once, and map the outcome to a response; unknown tools get a fixed text
response without any subprocess call.  The result carries the list of
subprocess invocations made, so that statements about how often the backend
is invoked can be made. -/
def call_tool (name : String) (arguments : Args) (res : ProcResult) :
    Except String (List SubprocessCall × List TextContent) :=
  match dispatch name arguments with
  | none => .ok ([], [⟨"text", "Unknown tool: " ++ name⟩])
  | some (.error e) => .error e
  | some (.ok args) => finish args res

/-- The eight tool names handled by the dispatcher's if/elif chain. -/
def knownToolNames : List String :=
  ["ctx_status", "ctx_map", "ctx_summarize", "ctx_search",
   "ctx_related", "ctx_diff_context", "ctx_schema", "ctx_version"]

/-- `list_tools()`: the static tool catalog, transcribed from the source. -/
def list_tools : List Tool :=
  [⟨"ctx_status",
    "Get project status overview including git branch, recent commits, and hot directories. Use this first when exploring a new codebase.",
    ⟨"object", [], []⟩⟩,
   ⟨"ctx_map",
    "Show project directory structure with file counts. Better than ls/find for understanding codebase layout.",
    ⟨"object",
     [("path", ⟨"string", "Path to map (default: current directory)", none⟩),
      ("depth", ⟨"integer", "Maximum depth to traverse", none⟩)],
     []⟩⟩,
   ⟨"ctx_summarize",
    "Extract symbols (functions, classes, etc.) from files using tree-sitter AST parsing. Much faster than reading entire files when you just need structure.",
    ⟨"object",
     [("paths", ⟨"array", "File or directory paths to summarize", some "string"⟩),
      ("skeleton", ⟨"boolean", "Show only function/class signatures", none⟩),
      ("depth", ⟨"integer", "Maximum depth for directory summarization", none⟩)],
     ["paths"]⟩⟩,
   ⟨"ctx_search",
    "Search codebase for text, symbol definitions, or function callers. Use --symbol for precise definition matching. Use --caller to find all call sites of a function (AST-based, impossible with grep).",
    ⟨"object",
     [("query", ⟨"string", "Search query", none⟩),
      ("symbol", ⟨"boolean", "Search for symbol definitions only (not usage)", none⟩),
      ("caller", ⟨"boolean", "Find callers of a function (AST-based)", none⟩),
      ("context", ⟨"integer", "Lines of context to show around matches", none⟩)],
     ["query"]⟩⟩,
   ⟨"ctx_related",
    "Find files related to a given file through imports, reverse imports, co-changes in git history, and associated test files.",
    ⟨"object",
     [("file", ⟨"string", "File path to find relations for", none⟩)],
     ["file"]⟩⟩,
   ⟨"ctx_diff_context",
    "Show git diff with expanded function context. Better than raw git diff for understanding what changed.",
    ⟨"object",
     [("git_ref", ⟨"string", "Git ref to diff against (default: uncommitted changes)", none⟩)],
     []⟩⟩,
   ⟨"ctx_schema",
    "Get JSON schema for a command\x27s output format. Useful for understanding output structure.",
    ⟨"object",
     [("command", ⟨"string", "Command to get schema for (status, map, summarize, search, related, diff-context)", none⟩)],
     ["command"]⟩⟩,
   ⟨"ctx_version",
    "Get ctx version and capabilities including supported languages, commands, and features.",
    ⟨"object", [], []⟩⟩]

/-- The ctx_search backend command line as the specification describes it:
`["search", "--json"]`, then `"--symbol"` exactly when symbol is set, then
`"--caller"` exactly when caller is set, then `["-C", str(context)]` when
context is set, and finally the query string as the last argument.  Stated
separately from the embedded dispatcher so the two can be compared. -/
def searchCmdlineSpec (query : String) (symbol caller : Bool)
    (context : Option Int) : List String :=
  ["search", "--json"]
    ++ (if symbol then ["--symbol"] else [])
    ++ (if caller then ["--caller"] else [])
    ++ (match context with
        | some n => ["-C", toString n]
        | none => [])
    ++ [query]

/-! Helper lemmas shared by the claim theorems. -/

/-- `finish` always makes exactly one subprocess call, with `timeout=60`,
and maps the outcome triple through `respond`. -/
theorem finish_eq (args : List String) (res : ProcResult) :
    finish args res = .ok ([⟨"ctx" :: args, 60⟩],
      respond (run_ctx_result res).1 (run_ctx_result res).2.1
        (run_ctx_result res).2.2) := rfl

/-- The response list always has exactly one text content. -/
theorem respond_len (o e : String) (c : Int) : (respond o e c).length = 1 := by
  unfold respond
  split <;> rfl

/-- The text of the error response, unfolded. -/
theorem errorResponse_text (o e : String) (c : Int) :
    (errorResponse o e c).text =
      "Error: " ++ (if e ≠ "" then e else "Command failed with exit code " ++ toString c)
        ++ "\n\nOutput: " ++ o := rfl

/-- The error response text is strictly longer than the raw stdout, hence
never equal to it: a success response cannot be mistaken for an error one. -/
theorem errorResponse_text_ne (o e : String) (c : Int) :
    (errorResponse o e c).text ≠ o := by
  rw [errorResponse_text]
  intro h
  have hlen := congrArg String.length h
  simp only [String.length_append] at hlen
  have h1 : ("Error: " : String).length = 7 := rfl
  have h2 : ("\n\nOutput: " : String).length = 10 := rfl
  omega

/-- The response is the error response exactly when the exit code is
nonzero. -/
theorem respond_error_iff (o e : String) (c : Int) :
    respond o e c = [errorResponse o e c] ↔ c ≠ 0 := by
  unfold respond
  constructor
  · intro h
    intro hc0
    rw [if_neg (fun hne => hne hc0)] at h
    injection h with h1 _
    exact errorResponse_text_ne o e c (congrArg TextContent.text h1).symm
  · intro h
    rw [if_pos h]

/-- Every name in the known list is handled by some dispatcher branch. -/
theorem dispatch_known (name : String) (h : name ∈ knownToolNames) (a : Args) :
    ∃ x, dispatch name a = some x := by
  fin_cases h <;> exact ⟨_, rfl⟩

/-- A name outside the known list reaches the final else branch. -/
theorem dispatch_unknown (name : String) (h : name ∉ knownToolNames) (a : Args) :
    dispatch name a = none := by
  simp only [knownToolNames, List.mem_cons, List.not_mem_nil, or_false,
    not_or] at h
  obtain ⟨h1, h2, h3, h4, h5, h6, h7, h8⟩ := h
  unfold dispatch
  rw [if_neg h1, if_neg h2, if_neg h3, if_neg h4, if_neg h5, if_neg h6,
    if_neg h7, if_neg h8]

/-- For a known tool, a non-raising `call_tool` run makes exactly one
subprocess call and its response is `respond` of the outcome triple. -/
theorem call_tool_known (name : String) (h : name ∈ knownToolNames) (a : Args)
    (res : ProcResult) (p : List SubprocessCall × List TextContent)
    (hc : call_tool name a res = .ok p) :
    p.1.length = 1 ∧
      p.2 = respond (run_ctx_result res).1 (run_ctx_result res).2.1
        (run_ctx_result res).2.2 := by
  obtain ⟨x, hx⟩ := dispatch_known name h a
  unfold call_tool at hc
  rw [hx] at hc
  cases x with
  | error e =>
    exact Except.noConfusion hc
  | ok args =>
    change finish args res = Except.ok p at hc
    rw [finish_eq] at hc
    injection hc with h2
    subst h2
    exact ⟨rfl, rfl⟩

/-- The dispatcher branch for ctx_search, unfolded at its literal name. -/
theorem dispatch_search_eq (a : Args) :
    dispatch "ctx_search" a = some ((requiredStr a "query").map
      (fun q =>
        ["search", "--json"]
          ++ (if Args.getTruthy a "symbol" then ["--symbol"] else [])
          ++ (if Args.getTruthy a "caller" then ["--caller"] else [])
          ++ extendStrOpt "-C" (Args.get a "context")
          ++ [q])) := rfl

/-- The dispatcher branch for ctx_related, unfolded at its literal name. -/
theorem dispatch_related_eq (a : Args) :
    dispatch "ctx_related" a = some ((requiredStr a "file").map
      (fun f => ["related", "--json", f])) := rfl

/-- The dispatcher branch for ctx_schema, unfolded at its literal name. -/
theorem dispatch_schema_eq (a : Args) :
    dispatch "ctx_schema" a = some ((requiredStr a "command").map
      (fun c => ["schema", c])) := rfl

/-! The claim theorems. -/

/-- Claim C1: for every known tool name, `call_tool` returns an error text
response if and only if the `run_ctx` exit code is nonzero, and each of the
three failure outcomes (process failed to start, process exceeded its
timeout, process returned nonzero) maps directly to a single text response
(the nonzero-exit case is the iff; the start-failure and timeout cases are
shown with their fixed one-sentence error messages). -/
theorem C1_error_response_iff_nonzero_exit (name : String)
    (h : name ∈ knownToolNames) (a : Args) (res : ProcResult)
    (calls : List SubprocessCall) (resp : List TextContent)
    (hc : call_tool name a res = .ok (calls, resp)) :
    resp.length = 1 ∧
      (resp = [errorResponse (run_ctx_result res).1 (run_ctx_result res).2.1
          (run_ctx_result res).2.2] ↔ (run_ctx_result res).2.2 ≠ 0) ∧
      (res = .fileNotFound →
        resp = [⟨"text",
          "Error: ctx not found in PATH. Please install ctx first.\n\nOutput: "⟩]) ∧
      (res = .timedOut →
        resp = [⟨"text",
          "Error: Command timed out after 60 seconds\n\nOutput: "⟩]) := by
  have hr := (call_tool_known name h a res (calls, resp) hc).2
  have hresp : resp = respond (run_ctx_result res).1 (run_ctx_result res).2.1
      (run_ctx_result res).2.2 := hr
  refine ⟨?_, ?_, ?_, ?_⟩
  · rw [hresp]
    exact respond_len _ _ _
  · rw [hresp]
    exact respond_error_iff _ _ _
  · intro hres
    subst hres
    rw [hresp]
    rfl
  · intro hres
    subst hres
    rw [hresp]
    rfl

/-- Witness for C1 at the start-failure outcome of ctx_status. -/
theorem C1_error_response_iff_nonzero_exit_witness :
    [(⟨"text",
      "Error: ctx not found in PATH. Please install ctx first.\n\nOutput: "⟩ :
        TextContent)] =
      [⟨"text",
        "Error: ctx not found in PATH. Please install ctx first.\n\nOutput: "⟩] :=
  (C1_error_response_iff_nonzero_exit "ctx_status" (by decide) []
    .fileNotFound [⟨["ctx", "status", "--json"], 60⟩]
    [⟨"text",
      "Error: ctx not found in PATH. Please install ctx first.\n\nOutput: "⟩]
    rfl).2.2.1 rfl

/-- Claim C2: for every known tool whose backend invocation exits with
code 0, the response is exactly one text content whose text equals the
backend stdout, unmodified. -/
theorem C2_success_stdout_passthrough (name : String)
    (h : name ∈ knownToolNames) (a : Args) (out err : String)
    (calls : List SubprocessCall) (resp : List TextContent)
    (hc : call_tool name a (.completed out err 0) = .ok (calls, resp)) :
    resp = [⟨"text", out⟩] := by
  have hr := (call_tool_known name h a (.completed out err 0) (calls, resp) hc).2
  have hresp : resp = respond out err 0 := hr
  rw [hresp]
  unfold respond
  rw [if_neg (by simp)]

/-- Witness for C2: ctx_version succeeding with stdout `hello`. -/
theorem C2_success_stdout_passthrough_witness :
    [(⟨"text", "hello"⟩ : TextContent)] = [⟨"text", "hello"⟩] :=
  C2_success_stdout_passthrough "ctx_version" (by decide) [] "hello" "warn"
    [⟨["ctx", "version", "--json"], 60⟩] [⟨"text", "hello"⟩] rfl

/-- Claim C3: the dispatcher builds the deterministic ctx_search command
line described by the spec — `["search", "--json"]`, then `"--symbol"`
exactly when symbol is set, then `"--caller"` exactly when caller is set,
then `["-C", str(context)]` when context is set, and the query last —
and invokes ctx on it. -/
theorem C3_search_cmdline_refines_spec (a : Args) (res : ProcResult)
    (q : String) (symbol caller : Bool) (context : Option Int)
    (hq : Args.get a "query" = some (.vStr q))
    (hs : Args.getTruthy a "symbol" = symbol)
    (hcal : Args.getTruthy a "caller" = caller)
    (hctx : Args.get a "context" = context.map Value.vInt)
    (hnz : context ≠ some 0) :
    call_tool "ctx_search" a res =
      .ok ([⟨"ctx" :: searchCmdlineSpec q symbol caller context, 60⟩],
        respond (run_ctx_result res).1 (run_ctx_result res).2.1
          (run_ctx_result res).2.2) := by
  have hdisp : dispatch "ctx_search" a =
      some (.ok (searchCmdlineSpec q symbol caller context)) := by
    rw [dispatch_search_eq]
    unfold requiredStr
    rw [hq, hs, hcal, hctx]
    cases context with
    | none =>
      simp [searchCmdlineSpec, extendStrOpt, Value.asStr, Except.map]
    | some n =>
      have hn : n ≠ 0 := fun h0 => hnz (by rw [h0])
      simp [searchCmdlineSpec, extendStrOpt, Value.asStr, Except.map,
        Value.truthy, Value.pyStr, hn]
  unfold call_tool
  rw [hdisp]
  exact finish_eq _ res

/-- Witness for C3: a search with query, symbol set and context 3. -/
theorem C3_search_cmdline_refines_spec_witness :
    call_tool "ctx_search"
        [("query", .vStr "foo"), ("symbol", .vBool true), ("context", .vInt 3)]
        (.completed "out" "" 0) =
      .ok ([⟨["ctx", "search", "--json", "--symbol", "-C", "3", "foo"], 60⟩],
        [⟨"text", "out"⟩]) :=
  C3_search_cmdline_refines_spec
    [("query", .vStr "foo"), ("symbol", .vBool true), ("context", .vInt 3)]
    (.completed "out" "" 0) "foo" true false (some 3)
    rfl rfl rfl rfl (by decide)

/-- Claim C4: `run_ctx` runs `["ctx"] + args` with a 60-second timeout;
a missing executable maps to the fixed not-found outcome, a timeout to the
fixed timed-out outcome, and a completed process passes its
`(stdout, stderr, returncode)` through unchanged. -/
theorem C4_run_ctx_timeout_and_failure_mapping (args : List String) :
    (∀ res : ProcResult, (run_ctx args res).1 = ⟨"ctx" :: args, 60⟩) ∧
    run_ctx args .fileNotFound =
      (⟨"ctx" :: args, 60⟩, "",
        "ctx not found in PATH. Please install ctx first.", 1) ∧
    run_ctx args .timedOut =
      (⟨"ctx" :: args, 60⟩, "", "Command timed out after 60 seconds", 1) ∧
    ∀ (out err : String) (c : Int),
      run_ctx args (.completed out err c) = (⟨"ctx" :: args, 60⟩, out, err, c) :=
  ⟨fun _ => rfl, rfl, rfl, fun _ _ _ => rfl⟩

/-- Claim C5: `list_tools` is a static catalog of exactly the eight tools,
in order, each descriptor carrying a nonempty description and an
object-typed input schema; being a constant of the embedding, it is the
same on every call. -/
theorem C5_static_catalog_of_eight_tools :
    list_tools.length = 8 ∧
    list_tools.map Tool.name =
      ["ctx_status", "ctx_map", "ctx_summarize", "ctx_search",
       "ctx_related", "ctx_diff_context", "ctx_schema", "ctx_version"] ∧
    (list_tools.all fun t =>
      !(t.description == "") && (t.inputSchema.type == "object")) = true :=
  ⟨rfl, rfl, rfl⟩

/-- Claim C6: no state is maintained across calls — the response is a
function of the tool name, the argument bag and the backend outcome alone,
so two invocations agreeing on those three produce equal results. -/
theorem C6_stateless_equal_inputs_equal_responses (n1 n2 : String)
    (a1 a2 : Args) (r1 r2 : ProcResult)
    (hn : n1 = n2) (ha : a1 = a2) (hr : r1 = r2) :
    call_tool n1 a1 r1 = call_tool n2 a2 r2 := by
  subst hn
  subst ha
  subst hr
  rfl

/-- Witness for C6: two identical ctx_status invocations. -/
theorem C6_stateless_equal_inputs_equal_responses_witness :
    call_tool "ctx_status" [] (.completed "o" "" 0) =
      call_tool "ctx_status" [] (.completed "o" "" 0) :=
  C6_stateless_equal_inputs_equal_responses "ctx_status" "ctx_status" [] []
    (.completed "o" "" 0) (.completed "o" "" 0) rfl rfl rfl

/-- Claim C7: no retry logic — a known-tool call that returns a response
has invoked the backend subprocess exactly once, whatever the outcome of
that invocation was. -/
theorem C7_backend_invoked_exactly_once (name : String)
    (h : name ∈ knownToolNames) (a : Args) (res : ProcResult)
    (calls : List SubprocessCall) (resp : List TextContent)
    (hc : call_tool name a res = .ok (calls, resp)) :
    calls.length = 1 :=
  (call_tool_known name h a res (calls, resp) hc).1

/-- Witness for C7: a timed-out ctx_map call still invoked ctx once. -/
theorem C7_backend_invoked_exactly_once_witness :
    ([(⟨["ctx", "map", "--json"], 60⟩ : SubprocessCall)]).length = 1 :=
  C7_backend_invoked_exactly_once "ctx_map" (by decide) [] .timedOut
    [⟨["ctx", "map", "--json"], 60⟩]
    [⟨"text", "Error: Command timed out after 60 seconds\n\nOutput: "⟩] rfl

/-- Claim C8: for the tools with declared required arguments (ctx_search
requires query, ctx_related requires file, ctx_schema requires command),
the catalog declares exactly that key required; when the key is present the
required-key lookup never fails; when it is absent `call_tool` raises a
key-lookup error instead of returning an error text response. -/
theorem C8_required_argument_lookup (a : Args) (res : ProcResult) :
    ((list_tools.find? fun t => t.name == "ctx_search").map
        fun t => t.inputSchema.required) = some ["query"] ∧
    ((list_tools.find? fun t => t.name == "ctx_related").map
        fun t => t.inputSchema.required) = some ["file"] ∧
    ((list_tools.find? fun t => t.name == "ctx_schema").map
        fun t => t.inputSchema.required) = some ["command"] ∧
    (Args.get a "query" = none →
      call_tool "ctx_search" a res = .error "KeyError: query") ∧
    (Args.get a "file" = none →
      call_tool "ctx_related" a res = .error "KeyError: file") ∧
    (Args.get a "command" = none →
      call_tool "ctx_schema" a res = .error "KeyError: command") ∧
    (∀ v, Args.get a "query" = some v →
      call_tool "ctx_search" a res ≠ .error "KeyError: query") ∧
    (∀ v, Args.get a "file" = some v →
      call_tool "ctx_related" a res ≠ .error "KeyError: file") ∧
    (∀ v, Args.get a "command" = some v →
      call_tool "ctx_schema" a res ≠ .error "KeyError: command") := by
  refine ⟨rfl, rfl, rfl, ?_, ?_, ?_, ?_, ?_, ?_⟩
  · intro hq
    unfold call_tool
    rw [dispatch_search_eq]
    unfold requiredStr
    rw [hq]
    rfl
  · intro hf
    unfold call_tool
    rw [dispatch_related_eq]
    unfold requiredStr
    rw [hf]
    rfl
  · intro hcmd
    unfold call_tool
    rw [dispatch_schema_eq]
    unfold requiredStr
    rw [hcmd]
    rfl
  · intro v hv hcontra
    unfold call_tool at hcontra
    rw [dispatch_search_eq] at hcontra
    unfold requiredStr at hcontra
    rw [hv] at hcontra
    cases v <;> simp [Value.asStr, Except.map, finish] at hcontra
  · intro v hv hcontra
    unfold call_tool at hcontra
    rw [dispatch_related_eq] at hcontra
    unfold requiredStr at hcontra
    rw [hv] at hcontra
    cases v <;> simp [Value.asStr, Except.map, finish] at hcontra
  · intro v hv hcontra
    unfold call_tool at hcontra
    rw [dispatch_schema_eq] at hcontra
    unfold requiredStr at hcontra
    rw [hv] at hcontra
    cases v <;> simp [Value.asStr, Except.map, finish] at hcontra

/-- Witness for C8: ctx_search with an empty argument bag raises KeyError. -/
theorem C8_required_argument_lookup_witness :
    call_tool "ctx_search" [] .timedOut = .error "KeyError: query" :=
  (C8_required_argument_lookup [] .timedOut).2.2.2.1 rfl

/-- Claim C9: a tool name outside the eight known names yields the single
text content `Unknown tool: <name>` and makes no subprocess call. -/
theorem C9_unknown_tool_no_subprocess (name : String)
    (h : name ∉ knownToolNames) (a : Args) (res : ProcResult) :
    call_tool name a res = .ok ([], [⟨"text", "Unknown tool: " ++ name⟩]) := by
  unfold call_tool
  rw [dispatch_unknown name h a]

/-- Witness for C9: a made-up tool name. -/
theorem C9_unknown_tool_no_subprocess_witness :
    call_tool "bogus" [] .timedOut =
      .ok ([], [⟨"text", "Unknown tool: " ++ "bogus"⟩]) :=
  C9_unknown_tool_no_subprocess "bogus" (by decide) [] .timedOut

/-- Claim C10: optional arguments enter the command line only when truthy —
a depth of 0 (ctx_map, ctx_summarize), a context of 0 (ctx_search) and an
empty-string path (ctx_map) are silently dropped, giving the very same
call as when the argument is absent. -/
theorem C10_falsy_optional_arguments_dropped (res : ProcResult) :
    call_tool "ctx_map" [("depth", .vInt 0)] res =
      call_tool "ctx_map" [] res ∧
    call_tool "ctx_map" [("path", .vStr "")] res =
      call_tool "ctx_map" [] res ∧
    call_tool "ctx_summarize" [("paths", .vList ["a.py"]), ("depth", .vInt 0)] res =
      call_tool "ctx_summarize" [("paths", .vList ["a.py"])] res ∧
    call_tool "ctx_search" [("query", .vStr "q"), ("context", .vInt 0)] res =
      call_tool "ctx_search" [("query", .vStr "q")] res :=
  ⟨rfl, rfl, rfl, rfl⟩

end CtxMcp
